import Mathlib

/-!
Shallow embedding of the event-registration bot `reg.py`: input
normalization, per-step validators, the conversation state machine, the
keyed registration store (SQLite upsert), and the notification dispatcher
with rate-limit retry and admin fallback.  External transport effects are
modelled by an explicit outcome parameter per send attempt.
-/

namespace Reg

/-- Whitespace as matched by Python `str.strip` / `re \s` for the
ASCII range (space, tab, newline, carriage return, vertical tab, form feed). -/
def pyIsSpace (c : Char) : Bool :=
  c = ' ' || c = '\t' || c = '\n' || c = '\r' || c = '\x0b' || c = '\x0c'

/-- Python `str.strip()`: drop leading and trailing whitespace. -/
def pyStrip (l : List Char) : List Char :=
  ((l.dropWhile pyIsSpace).reverse.dropWhile pyIsSpace).reverse

/-- Model of `re.sub(r"\s+", " ", ·)`: replace every maximal run of whitespace
characters by a single space. -/
def collapseWS : List Char → List Char
  | [] => []
  | [c] => [if pyIsSpace c then ' ' else c]
  | c :: d :: rest =>
    if pyIsSpace c && pyIsSpace d then collapseWS (d :: rest)
    else (if pyIsSpace c then ' ' else c) :: collapseWS (d :: rest)

/-- Function `clean` from reg.py line 42: strip, then collapse internal whitespace runs. -/
def clean (s : String) : String :=
  String.mk (collapseWS (pyStrip s.data))

/-- Character class of the first-name regular expression
`[A-Za-zА-Яа-яЁёІіЇїЄєҐґ'’\- ]` (reg.py line 49), by code point. -/
def allowedNameChar (c : Char) : Bool :=
  (65 ≤ c.toNat && c.toNat ≤ 90) || (97 ≤ c.toNat && c.toNat ≤ 122) ||
  (0x410 ≤ c.toNat && c.toNat ≤ 0x44F) ||
  (c.toNat = 0x401) || (c.toNat = 0x451) ||
  (c.toNat = 0x406) || (c.toNat = 0x456) ||
  (c.toNat = 0x407) || (c.toNat = 0x457) ||
  (c.toNat = 0x404) || (c.toNat = 0x454) ||
  (c.toNat = 0x490) || (c.toNat = 0x491) ||
  (c.toNat = 39) || (c.toNat = 0x2019) || (c.toNat = 45) || (c.toNat = 32)

/-- Function `valid_first_name` (reg.py line 48): full match of the name character
class, length 2 to 50. -/
def valid_first_name (s : String) : Bool :=
  decide (2 ≤ s.length) && decide (s.length ≤ 50) && s.data.all allowedNameChar

/-- Python `str.lower` restricted to the Latin and Cyrillic ranges this
program feeds it; identity on every other code point. -/
def pyLower (c : Char) : Char :=
  if 65 ≤ c.toNat && c.toNat ≤ 90 then Char.ofNat (c.toNat + 32)
  else if 0x410 ≤ c.toNat && c.toNat ≤ 0x42F then Char.ofNat (c.toNat + 0x20)
  else if 0x400 ≤ c.toNat && c.toNat ≤ 0x40F then Char.ofNat (c.toNat + 0x50)
  else if c.toNat = 0x490 then Char.ofNat 0x491
  else c

/-- Model of `.replace("ё", "е")` as a character map (both strings are single chars). -/
def yoToE (c : Char) : Char :=
  if c.toNat = 0x451 then Char.ofNat 0x435 else c

/-- The normalization pipeline of `normalize_games_answer` (reg.py line 53):
`clean(s).lower().replace("ё", "е")`. -/
def gamesFold (s : String) : String :=
  String.mk (((clean s).data.map pyLower).map yoToE)

/-- Synonyms mapped to the canonical yes value (reg.py line 54). -/
def yesSyns : List String := ["так", "да", "yes", "y"]

/-- Synonyms mapped to the canonical no value (reg.py line 56). -/
def noSyns : List String := ["ні", "ни", "нет", "no", "n"]

/-- Synonyms mapped to the canonical unknown value (reg.py line 58). -/
def unknownSyns : List String := ["не знаю", "незнаю", "не знаю.", "не знаю!", "не знаю?"]

/-- Canonical yes value returned at reg.py line 55. -/
def gamesYes : String := "так"

/-- Canonical no value returned at reg.py line 57. -/
def gamesNo : String := "ні"

/-- Canonical unknown value returned at reg.py line 59. -/
def gamesUnknown : String := "не знаю"

/-- Function `normalize_games_answer` (reg.py lines 52-60): fold the input, then map
the three synonym sets to their canonical values; anything else is `none`. -/
def normalize_games_answer (s : String) : Option String :=
  if gamesFold s ∈ yesSyns then some gamesYes
  else if gamesFold s ∈ noSyns then some gamesNo
  else if gamesFold s ∈ unknownSyns then some gamesUnknown
  else none

/-- Python `str.isdigit` for the decimal digits `0`-`9` (the range this
program's inputs exercise), per character. -/
def pyIsDigit (c : Char) : Bool :=
  48 ≤ c.toNat && c.toNat ≤ 57

/-- Python `txt.isdigit()`: nonempty and all characters digits. -/
def pyIsDigitStr (s : String) : Bool :=
  !s.isEmpty && s.data.all pyIsDigit

/-- Python `int(txt)` on an all-digit string. -/
def pyInt (s : String) : Nat :=
  s.data.foldl (fun n c => n * 10 + (c.toNat - 48)) 0

/-- One row of the `registrations` table (reg.py lines 66-74); the primary
key is `tg_user_id` and `updated_at` is modelled as an abstract tick. -/
structure Row where
  tg_user_id : Int
  tg_username : Option String
  first_name : String
  last_name_or_nick : String
  age : Nat
  games_answer : Option String
  updated_at : Nat
deriving DecidableEq, Repr

/-- The registration store: the rows of the single table. -/
abbrev Store := List Row

/-- The row written by one upsert call at tick `now`. -/
def mkRow (uid : Int) (un : Option String) (fn ln : String) (age : Nat)
    (ga : String) (now : Nat) : Row :=
  ⟨uid, un, fn, ln, age, some ga, now⟩

/-- Function `upsert_registration` (reg.py lines 85-105): `INSERT .. ON CONFLICT
(tg_user_id) DO UPDATE` with every field overwritten and `updated_at`
refreshed to the current tick. -/
def upsert_registration (store : Store) (uid : Int) (un : Option String)
    (fn ln : String) (age : Nat) (ga : String) (now : Nat) : Store :=
  if store.any (fun r => r.tg_user_id == uid) then
    store.map (fun r => if r.tg_user_id == uid then mkRow uid un fn ln age ga now else r)
  else store ++ [mkRow uid un fn ln age ga now]

/-- The primary-key invariant: no two rows share a `tg_user_id`. -/
def keysUnique (store : Store) : Prop :=
  store.Pairwise (fun a b => a.tg_user_id ≠ b.tg_user_id)

/-- Outcome of one transport send attempt, naming the exception classes
caught in `notify_group` (reg.py lines 126-147). -/
inductive SendOutcome where
  | ok
  | retryAfter (d : Nat)
  | forbidden
  | badRequest
  | other
deriving DecidableEq, Repr

/-- Trace of one `notify_group` call: attempted sends, successful
deliveries, sleeps, log lines, and the returned boolean. -/
structure GroupResult where
  attempts : List (Int × String)
  delivered : List (Int × String)
  sleeps : List Nat
  logs : List String
  ok : Bool
deriving DecidableEq, Repr

/-- Function `notify_group` (reg.py lines 118-147), parametrized by the outcome of
the first attempt and, when it is reached, of the retry attempt: one retry
after `d + 1` seconds on a rate limit, no retry on any other failure. -/
def notify_group (chatId : Int) (text : String) (o1 o2 : SendOutcome) : GroupResult :=
  match o1 with
  | .ok => ⟨[(chatId, text)], [(chatId, text)], [], [], true⟩
  | .retryAfter d =>
    match o2 with
    | .ok =>
      ⟨[(chatId, text), (chatId, text)], [(chatId, text)], [d + 1],
       ["[GROUP] Rate limit"], true⟩
    | _ =>
      ⟨[(chatId, text), (chatId, text)], [], [d + 1],
       ["[GROUP] Rate limit", "[GROUP] Retry failed"], false⟩
  | .forbidden => ⟨[(chatId, text)], [], [], ["[GROUP] Forbidden"], false⟩
  | .badRequest => ⟨[(chatId, text)], [], [], ["[GROUP] BadRequest"], false⟩
  | .other => ⟨[(chatId, text)], [], [], ["[GROUP] Unknown error"], false⟩

/-- Warning tag prepended to the fallback copy (reg.py line 154). -/
def warnTag : String := "⚠️ Не вдалося надіслати в групу. Ось реєстрація:\n\n"

/-- Log line of a failed fallback send (reg.py line 156). -/
def adminFailLog : String := "[ADMIN FALLBACK] Failed"

/-- Trace of one `notify_admin_fallback` call. -/
structure AdminResult where
  attempts : List (Int × String)
  delivered : List (Int × String)
  logs : List String
deriving DecidableEq, Repr

/-- Function `notify_admin_fallback` (reg.py lines 150-156): only when `ADMIN_ID`
is truthy (nonzero), send the warning-tagged copy to the admin; a failure
is logged and swallowed. -/
def notify_admin_fallback (adminId : Int) (text : String) (o : SendOutcome) : AdminResult :=
  if adminId = 0 then ⟨[], [], []⟩
  else
    match o with
    | .ok => ⟨[(adminId, warnTag ++ text)], [(adminId, warnTag ++ text)], []⟩
    | _ => ⟨[(adminId, warnTag ++ text)], [], [adminFailLog]⟩

/-- The FSM states of `Reg` (reg.py lines 35-39) plus the idle state of an
empty `FSMContext`. -/
inductive ConvState where
  | idle
  | awaitingFirstName
  | awaitingLastNameOrNick
  | awaitingAge
  | awaitingGames
deriving DecidableEq, Repr

/-- The per-user FSM data dict, one optional slot per accumulated answer. -/
structure SessionData where
  first_name : Option String
  last_name_or_nick : Option String
  age : Option Nat
deriving DecidableEq, Repr

/-- A conversation session: current state plus accumulated data. -/
structure Session where
  st : ConvState
  data : SessionData
deriving DecidableEq, Repr

/-- The data dict after `state.clear()`. -/
def emptyData : SessionData := ⟨none, none, none⟩

/-- The session after `state.clear()`: idle, nothing accumulated. -/
def idleSession : Session := ⟨.idle, emptyData⟩

/-- One inbound Telegram text message: sender id, sender handle, text. -/
structure Msg where
  fromId : Int
  username : Option String
  text : String
deriving DecidableEq, Repr

/-- The environment of one update: configured chat ids, the transport
outcomes of the (up to three) send attempts the handlers may make, and
the current tick used as `CURRENT_TIMESTAMP`. -/
structure Env where
  groupChatId : Int
  adminId : Int
  groupO1 : SendOutcome
  groupO2 : SendOutcome
  adminO : SendOutcome
  now : Nat
deriving DecidableEq, Repr

/-- Result of dispatching one message: new session, new store, replies sent
to the user, and the group/admin notification traces. -/
structure StepResult where
  sess : Session
  store : Store
  userMsgs : List String
  group : GroupResult
  admin : AdminResult
deriving DecidableEq, Repr

/-- An update that made no group send. -/
def noGroup : GroupResult := ⟨[], [], [], [], true⟩

/-- An update that made no admin send. -/
def noAdmin : AdminResult := ⟨[], [], []⟩

/-- Prompt of the `/start` handler (reg.py lines 171-175). -/
def startText : String := "Реєстрація на захід 📝\n\nВкажи *ім\x27я* учасника:"

/-- Reply of the `/cancel` handler (reg.py line 181). -/
def cancelText : String := "Скасовано. Щоб почати знову — /start"

/-- Re-prompt on an invalid first name (reg.py line 208). -/
def badNameText : String :=
  "Ім\x27я має бути літерами (можна з дефісом/апострофом). Спробуй ще раз."

/-- Prompt for the last name or nickname (reg.py lines 211-215). -/
def askLastText : String :=
  "Тепер напиши *прізвище* або *нікнейм* учасника\n*(це потрібно для того, щоб підтвердити свою реєстрацію на вході)*:"

/-- Re-prompt on a too short or too long last name (reg.py line 222). -/
def badLastText : String := "Занадто коротко/довго. Напиши прізвище або нікнейм ще раз."

/-- Prompt for the age (reg.py line 225). -/
def askAgeText : String := "Вкажи *вік* учасника (числом):"

/-- Re-prompt on a non-numeric age (reg.py line 232). -/
def badAgeDigitsText : String := "Вік треба вказати числом. Наприклад: 18"

/-- Re-prompt on an out-of-range age (reg.py line 236). -/
def badAgeRangeText : String := "Перевір вік — введи число від 5 до 120."

/-- Prompt for the games answer (reg.py lines 240-245). -/
def askGamesText : String :=
  "Чи грав(-ла) учасник в одну або кілька з цих ігор: Діксіт, Коднеймс (Кодові імена), Каркасон або Кольт Експрес?\n\nВідповідь: *так / ні / не знаю*"

/-- Re-prompt on an unrecognized games answer (reg.py line 252). -/
def badGamesText : String := "Будь ласка, відповідай: *так* / *ні* / *не знаю*."

/-- Success confirmation shown to the user (reg.py lines 269-276). -/
def successText (fn ln : String) (age : Nat) (ans : String) : String :=
  "✅ Реєстрацію збережено!\nІм\x27я: " ++ fn ++ "\nПрізвище/нік: " ++ ln ++
  "\nВік: " ++ toString age ++ "\nДосвід з іграми: " ++ ans ++
  "\n\nЯкщо треба змінити — натисни /start ще раз."

/-- The `@username` display, or a dash when the sender has no handle
(reg.py line 278). -/
def usernameDisplay (un : Option String) : String :=
  match un with
  | some u => "@" ++ u
  | none => "—"

/-- Summary posted to the group chat (reg.py lines 280-288). -/
def groupText (fn ln : String) (age : Nat) (ans : String)
    (un : Option String) (uid : Int) : String :=
  "📝 Нова реєстрація\n• Ім\x27я: " ++ fn ++ "\n• Прізвище/нік: " ++ ln ++
  "\n• Вік: " ++ toString age ++ "\n• Грав(-ла) в ці ігри?: " ++ ans ++
  "\n• TG: " ++ usernameDisplay un ++ "\n• ID: " ++ toString uid

/-- The `/start` handler (reg.py lines 168-176): clear the session, prompt for
the first name, enter the first-name state. -/
def startH (store : Store) : StepResult :=
  ⟨⟨.awaitingFirstName, emptyData⟩, store, [startText], noGroup, noAdmin⟩

/-- The `/cancel` handler (reg.py lines 178-181): clear the session, back to idle. -/
def cancelH (store : Store) : StepResult :=
  ⟨idleSession, store, [cancelText], noGroup, noAdmin⟩

/-- Caption of the export reply (reg.py line 202). -/
def exportCaption (store : Store) : String :=
  "Всього реєстрацій: " ++ toString store.length

/-- The `/export` handler (reg.py lines 183-202): admin gate, then a CSV
document reply.  The document body is the excluded export collaborator;
only the session/store frame and the caption are modelled. -/
def exportH (env : Env) (store : Store) (sess : Session) (m : Msg) : StepResult :=
  if env.adminId ≠ 0 ∧ m.fromId ≠ env.adminId then
    ⟨sess, store, ["Ця команда доступна лише адміну."], noGroup, noAdmin⟩
  else
    ⟨sess, store, [exportCaption store], noGroup, noAdmin⟩

/-- Handler `step_first_name` (reg.py lines 204-216). -/
def step_first_name (store : Store) (sess : Session) (m : Msg) : StepResult :=
  let name := clean m.text
  if valid_first_name name then
    ⟨⟨.awaitingLastNameOrNick, { sess.data with first_name := some name }⟩,
     store, [askLastText], noGroup, noAdmin⟩
  else ⟨sess, store, [badNameText], noGroup, noAdmin⟩

/-- Handler `step_last_or_nick` (reg.py lines 218-226). -/
def step_last_or_nick (store : Store) (sess : Session) (m : Msg) : StepResult :=
  let val := clean m.text
  if val.length < 2 ∨ val.length > 50 then
    ⟨sess, store, [badLastText], noGroup, noAdmin⟩
  else
    ⟨⟨.awaitingAge, { sess.data with last_name_or_nick := some val }⟩,
     store, [askAgeText], noGroup, noAdmin⟩

/-- Handler `step_age` (reg.py lines 228-246). -/
def step_age (store : Store) (sess : Session) (m : Msg) : StepResult :=
  let txt := clean m.text
  if ¬ pyIsDigitStr txt then ⟨sess, store, [badAgeDigitsText], noGroup, noAdmin⟩
  else
    let age := pyInt txt
    if age < 5 ∨ age > 120 then ⟨sess, store, [badAgeRangeText], noGroup, noAdmin⟩
    else
      ⟨⟨.awaitingGames, { sess.data with age := some age }⟩,
       store, [askGamesText], noGroup, noAdmin⟩

/-- Handler `step_games` (reg.py lines 248-294): on a valid answer, upsert the
record, confirm to the user, notify the group, fall back to the admin on
failure, and clear the session.  `none` models the `KeyError` raised when
an accumulated field is missing (unreachable along the real flow). -/
def step_games (env : Env) (store : Store) (sess : Session) (m : Msg) :
    Option StepResult :=
  match normalize_games_answer m.text with
  | none => some ⟨sess, store, [badGamesText], noGroup, noAdmin⟩
  | some ans =>
    match sess.data.first_name, sess.data.last_name_or_nick, sess.data.age with
    | some fn, some ln, some age =>
      let store2 := upsert_registration store m.fromId m.username fn ln age ans env.now
      let gtext := groupText fn ln age ans m.username m.fromId
      let g := notify_group env.groupChatId gtext env.groupO1 env.groupO2
      let a := if g.ok then noAdmin else notify_admin_fallback env.adminId gtext env.adminO
      some ⟨idleSession, store2, [successText fn ln age ans], g, a⟩
    | _, _, _ => none

/-- First whitespace-delimited token of a message text. -/
def firstToken (s : String) : String :=
  String.mk (s.data.takeWhile (fun c => !pyIsSpace c))

/-- Command filter: the text's first token is `/name` (aiogram
`Command(name)` / `CommandStart()` on a plain command). -/
def isCmd (name : String) (text : String) : Bool :=
  firstToken text == "/" ++ name

/-- The dispatcher for one message, in handler registration order
(reg.py lines 168-294): `/start`, `/cancel`, `/export`, then the handler
filtered on the current FSM state; an idle non-command message matches no
handler. -/
def handle (env : Env) (store : Store) (sess : Session) (m : Msg) :
    Option StepResult :=
  if isCmd "start" m.text then some (startH store)
  else if isCmd "cancel" m.text then some (cancelH store)
  else if isCmd "export" m.text then some (exportH env store sess m)
  else
    match sess.st with
    | .idle => some ⟨sess, store, [], noGroup, noAdmin⟩
    | .awaitingFirstName => some (step_first_name store sess m)
    | .awaitingLastNameOrNick => some (step_last_or_nick store sess m)
    | .awaitingAge => some (step_age store sess m)
    | .awaitingGames => step_games env store sess m

/-- Dispatch a list of messages in order, collecting each step's result. -/
def runScript (env : Env) : Store → Session → List Msg →
    Option (Store × Session × List StepResult)
  | store, sess, [] => some (store, sess, [])
  | store, sess, m :: rest =>
    match handle env store sess m with
    | none => none
    | some r =>
      match runScript env r.store r.sess rest with
      | none => none
      | some (st, se, rs) => some (st, se, r :: rs)

/-- Configuration and outcomes of the end-to-end scenario: broadcast chat
`-100`, no admin, all sends succeed, tick 5. -/
def envC1 : Env := ⟨-100, 0, .ok, .ok, .ok, 5⟩

/-- The five inbound messages of the end-to-end scenario, from user 42. -/
def msgsC1 : List Msg :=
  [⟨42, some "ann", "/start"⟩, ⟨42, some "ann", "Ann"⟩, ⟨42, some "ann", "Smith"⟩,
   ⟨42, some "ann", "17"⟩, ⟨42, some "ann", "так"⟩]

/-- The record the end-to-end scenario must leave in the store. -/
def rowC1 : Row := ⟨42, some "ann", "Ann", "Smith", 17, some gamesYes, 5⟩

theorem mem_no_not_yes {t : String} (h : t ∈ noSyns) : t ∉ yesSyns := by
  simp only [noSyns, List.mem_cons, List.not_mem_nil, or_false] at h
  rcases h with rfl | rfl | rfl | rfl | rfl <;> decide

theorem mem_unknown_not_yes {t : String} (h : t ∈ unknownSyns) : t ∉ yesSyns := by
  simp only [unknownSyns, List.mem_cons, List.not_mem_nil, or_false] at h
  rcases h with rfl | rfl | rfl | rfl | rfl <;> decide

theorem mem_unknown_not_no {t : String} (h : t ∈ unknownSyns) : t ∉ noSyns := by
  simp only [unknownSyns, List.mem_cons, List.not_mem_nil, or_false] at h
  rcases h with rfl | rfl | rfl | rfl | rfl <;> decide

/-- Claim C2: after normalization and case-folding, each yes synonym maps
to the canonical yes value, each no synonym to the canonical no value,
each unknown synonym to the canonical unknown value, and every other
string is rejected with no match. -/
theorem games_answer_mapping (s : String) :
    (gamesFold s ∈ yesSyns → normalize_games_answer s = some gamesYes) ∧
    (gamesFold s ∈ noSyns → normalize_games_answer s = some gamesNo) ∧
    (gamesFold s ∈ unknownSyns → normalize_games_answer s = some gamesUnknown) ∧
    (gamesFold s ∉ yesSyns → gamesFold s ∉ noSyns → gamesFold s ∉ unknownSyns →
      normalize_games_answer s = none) := by
  refine ⟨fun h => ?_, fun h => ?_, fun h => ?_, fun h1 h2 h3 => ?_⟩ <;>
    unfold normalize_games_answer
  · rw [if_pos h]
  · rw [if_neg (mem_no_not_yes h), if_pos h]
  · rw [if_neg (mem_unknown_not_yes h), if_neg (mem_unknown_not_no h), if_pos h]
  · rw [if_neg h1, if_neg h2, if_neg h3]

/-- Witness for C2 at concrete inputs from each class. -/
theorem games_answer_mapping_witness :
    normalize_games_answer " ТАК " = some gamesYes ∧
    normalize_games_answer "Нет" = some gamesNo ∧
    normalize_games_answer "не  знаю!" = some gamesUnknown ∧
    normalize_games_answer "возможно" = none :=
  ⟨(games_answer_mapping " ТАК ").1 (by decide),
   (games_answer_mapping "Нет").2.1 (by decide),
   (games_answer_mapping "не  знаю!").2.2.1 (by decide),
   (games_answer_mapping "возможно").2.2.2 (by decide) (by decide) (by decide)⟩

/-- Claim C4: a first-attempt rate limit carrying wait `d` sleeps `d + 1`
and retries exactly once whatever the retry outcome; a permission or
malformed-request failure retries nothing, logs, and returns failure. -/
theorem notify_group_retry_policy (cid : Int) (t : String) (d : Nat) (o2 : SendOutcome) :
    ((notify_group cid t (SendOutcome.retryAfter d) o2).sleeps = [d + 1] ∧
     (notify_group cid t (SendOutcome.retryAfter d) o2).attempts.length = 2) ∧
    ((notify_group cid t SendOutcome.forbidden o2).attempts.length = 1 ∧
     (notify_group cid t SendOutcome.forbidden o2).ok = false ∧
     (notify_group cid t SendOutcome.forbidden o2).logs = ["[GROUP] Forbidden"]) ∧
    ((notify_group cid t SendOutcome.badRequest o2).attempts.length = 1 ∧
     (notify_group cid t SendOutcome.badRequest o2).ok = false ∧
     (notify_group cid t SendOutcome.badRequest o2).logs = ["[GROUP] BadRequest"]) := by
  cases o2 <;> simp [notify_group]

/-- Claim C9: `/cancel` from any session discards the partial answers and
returns to idle, and a following `/start` opens a fresh flow whose data
holds none of the prior answers. -/
theorem cancel_then_start_fresh (env env2 : Env) (store store2 : Store)
    (sess : Session) (uid uid2 : Int) (un un2 : Option String) :
    (handle env store sess ⟨uid, un, "/cancel"⟩).map StepResult.sess = some idleSession ∧
    (handle env2 store2 idleSession ⟨uid2, un2, "/start"⟩).map StepResult.sess =
      some ⟨ConvState.awaitingFirstName, emptyData⟩ :=
  ⟨rfl, rfl⟩

/-- Claim C1: running `/start`, `Ann`, `Smith`, `17`, `так` from an idle
session leaves exactly the scenario record in the store, ends idle, shows
the user the success confirmation last, and delivers the formatted summary
to the broadcast chat. -/
theorem end_to_end_scenario :
    (runScript envC1 [] idleSession msgsC1).map (fun x => x.1) = some [rowC1] ∧
    (runScript envC1 [] idleSession msgsC1).map (fun x => x.2.1) = some idleSession ∧
    (runScript envC1 [] idleSession msgsC1).map
        (fun x => (x.2.2.map StepResult.userMsgs).getLast?) =
      some (some [successText "Ann" "Smith" 17 gamesYes]) ∧
    (runScript envC1 [] idleSession msgsC1).map
        (fun x => (x.2.2.map (fun r => r.group.delivered)).flatten) =
      some [(envC1.groupChatId, groupText "Ann" "Smith" 17 gamesYes (some "ann") 42)] := by
  refine ⟨by decide, by decide, by decide, by decide⟩

theorem filter_map_replaceAll (uid : Int) (new : Row) (hnew : new.tg_user_id = uid)
    (l : List Row) :
    (l.map (fun r => if r.tg_user_id == uid then new else r)).filter
      (fun r => r.tg_user_id == uid) =
    List.replicate (l.countP (fun r => r.tg_user_id == uid)) new := by
  induction l with
  | nil => rfl
  | cons r rest ih =>
    simp only [beq_iff_eq] at ih ⊢
    by_cases hr : r.tg_user_id = uid
    · simp [List.filter_cons, List.countP_cons, hr, hnew, ih, List.replicate_succ]
    · simp [List.filter_cons, List.countP_cons, hr, ih]

theorem countP_eq_one_of_unique (uid : Int) :
    ∀ store : Store, keysUnique store →
      store.any (fun r => r.tg_user_id == uid) = true →
      store.countP (fun r => r.tg_user_id == uid) = 1 := by
  intro store
  induction store with
  | nil => intro _ hany; simp at hany
  | cons r rest ih =>
    intro h hany
    simp only [keysUnique, List.pairwise_cons] at h
    obtain ⟨hr, hrest⟩ := h
    by_cases hk : r.tg_user_id = uid
    · have hzero : rest.countP (fun x => x.tg_user_id == uid) = 0 := by
        rw [List.countP_eq_zero]
        intro b hb
        simp only [beq_iff_eq]
        intro hbe
        exact hr b hb (by rw [hk, hbe])
      simp [List.countP_cons, hk, hzero]
    · have hany' : rest.any (fun x => x.tg_user_id == uid) = true := by
        simp only [List.any_cons, Bool.or_eq_true] at hany
        rcases hany with h1 | h1
        · exact absurd (by simpa using h1) hk
        · exact h1
      simp [List.countP_cons, hk, ih hrest hany']

theorem upsert_filter_eq (store : Store) (uid : Int) (un : Option String)
    (fn ln : String) (age : Nat) (ga : String) (now : Nat) (h : keysUnique store) :
    (upsert_registration store uid un fn ln age ga now).filter
      (fun r => r.tg_user_id == uid) = [mkRow uid un fn ln age ga now] := by
  unfold upsert_registration
  by_cases hany : store.any (fun r => r.tg_user_id == uid) = true
  · rw [if_pos hany, filter_map_replaceAll uid _ rfl, countP_eq_one_of_unique uid store h hany]
    rfl
  · rw [if_neg hany]
    have hf : store.filter (fun r => r.tg_user_id == uid) = [] := by
      rw [List.filter_eq_nil_iff]
      intro a ha hpa
      exact hany (List.any_eq_true.mpr ⟨a, ha, hpa⟩)
    rw [List.filter_append, hf]
    simp [mkRow]

theorem key_of_replace (uid : Int) (new : Row) (hnew : new.tg_user_id = uid) (r : Row) :
    (if r.tg_user_id == uid then new else r).tg_user_id = r.tg_user_id := by
  by_cases hr : r.tg_user_id = uid
  · simp [hr, hnew]
  · simp [hr]

theorem upsert_keysUnique (store : Store) (uid : Int) (un : Option String)
    (fn ln : String) (age : Nat) (ga : String) (now : Nat) (h : keysUnique store) :
    keysUnique (upsert_registration store uid un fn ln age ga now) := by
  unfold upsert_registration
  by_cases hany : store.any (fun r => r.tg_user_id == uid) = true
  · rw [if_pos hany]
    unfold keysUnique
    rw [List.pairwise_map]
    refine h.imp ?_
    intro a b hab
    rw [key_of_replace uid _ rfl a, key_of_replace uid _ rfl b]
    exact hab
  · rw [if_neg hany]
    unfold keysUnique
    rw [List.pairwise_append]
    refine ⟨h, List.pairwise_singleton _ _, ?_⟩
    intro a ha b hb
    simp only [List.mem_singleton] at hb
    subst hb
    simp only [mkRow]
    intro hak
    exact hany (List.any_eq_true.mpr ⟨a, ha, by simpa using hak⟩)

/-- Claim C3: upserting twice for the same user identity over a store with
unique keys leaves exactly one row for that identity — the second payload
with the refreshed timestamp — and the no-duplicate invariant still holds. -/
theorem upsert_last_write_wins (store : Store) (uid : Int)
    (un1 un2 : Option String) (fn1 ln1 fn2 ln2 : String) (age1 age2 : Nat)
    (ga1 ga2 : String) (t1 t2 : Nat) (h : keysUnique store) :
    ((upsert_registration (upsert_registration store uid un1 fn1 ln1 age1 ga1 t1)
        uid un2 fn2 ln2 age2 ga2 t2).filter (fun r => r.tg_user_id == uid) =
      [⟨uid, un2, fn2, ln2, age2, some ga2, t2⟩]) ∧
    keysUnique (upsert_registration (upsert_registration store uid un1 fn1 ln1 age1 ga1 t1)
        uid un2 fn2 ln2 age2 ga2 t2) := by
  have h1 := upsert_keysUnique store uid un1 fn1 ln1 age1 ga1 t1 h
  exact ⟨upsert_filter_eq _ uid un2 fn2 ln2 age2 ga2 t2 h1,
         upsert_keysUnique _ uid un2 fn2 ln2 age2 ga2 t2 h1⟩

/-- Witness for C3: two upserts for user 7 on a one-row store. -/
theorem upsert_last_write_wins_witness :
    ((upsert_registration (upsert_registration
        [⟨9, none, "Bob", "Lee", 30, some "ні", 0⟩] 7 none "A" "B" 20 "так" 1)
        7 (some "h") "C" "D" 21 "ні" 2).filter (fun r => r.tg_user_id == 7) =
      [⟨7, some "h", "C", "D", 21, some "ні", 2⟩]) ∧
    keysUnique (upsert_registration (upsert_registration
        [⟨9, none, "Bob", "Lee", 30, some "ні", 0⟩] 7 none "A" "B" 20 "так" 1)
        7 (some "h") "C" "D" 21 "ні" 2) :=
  upsert_last_write_wins [⟨9, none, "Bob", "Lee", 30, some "ні", 0⟩] 7
    none (some "h") "A" "B" "C" "D" 20 21 "так" "ні" 1 2
    (by simp [keysUnique])

theorem notify_admin_fallback_spec (adminId : Int) (t : String) (o : SendOutcome)
    (h : adminId ≠ 0) :
    (notify_admin_fallback adminId t o).attempts = [(adminId, warnTag ++ t)] ∧
    (o ≠ SendOutcome.ok → (notify_admin_fallback adminId t o).delivered = [] ∧
      (notify_admin_fallback adminId t o).logs = [adminFailLog] ∧
      (notify_admin_fallback adminId t o).attempts.length = 1) := by
  cases o <;> simp [notify_admin_fallback, h]

theorem notify_group_fail_logs (c : Int) (t : String) (o1 o2 : SendOutcome)
    (h : (notify_group c t o1 o2).ok = false) :
    (notify_group c t o1 o2).logs ≠ [] := by
  cases o1 <;> cases o2 <;> simp_all [notify_group]

theorem step_games_shape (env : Env) (store : Store) (sess : Session) (m : Msg)
    (fn ln : String) (age : Nat) (ans : String)
    (hfn : sess.data.first_name = some fn)
    (hln : sess.data.last_name_or_nick = some ln)
    (hage : sess.data.age = some age)
    (hans : normalize_games_answer m.text = some ans) :
    step_games env store sess m = some
      ⟨idleSession,
       upsert_registration store m.fromId m.username fn ln age ans env.now,
       [successText fn ln age ans],
       notify_group env.groupChatId (groupText fn ln age ans m.username m.fromId)
         env.groupO1 env.groupO2,
       if (notify_group env.groupChatId (groupText fn ln age ans m.username m.fromId)
             env.groupO1 env.groupO2).ok then noAdmin
       else notify_admin_fallback env.adminId
         (groupText fn ln age ans m.username m.fromId) env.adminO⟩ := by
  rw [step_games, hans, hfn, hln, hage]

/-- Claim C6: once the terminal transition has committed the record, the
stored record, the user-visible replies and the reset-to-idle session are
the same whatever the dispatch outcome: none of the three depend on the
transport outcomes in `env`. -/
theorem dispatch_outcome_frame (env env2 : Env) (store : Store) (sess : Session)
    (m : Msg) (fn ln : String) (age : Nat) (ans : String)
    (hfn : sess.data.first_name = some fn)
    (hln : sess.data.last_name_or_nick = some ln)
    (hage : sess.data.age = some age)
    (hans : normalize_games_answer m.text = some ans)
    (hnow : env.now = env2.now) :
    (step_games env store sess m).map (fun r => (r.store, r.userMsgs, r.sess)) =
      some (upsert_registration store m.fromId m.username fn ln age ans env.now,
            [successText fn ln age ans], idleSession) ∧
    (step_games env store sess m).map (fun r => (r.store, r.userMsgs, r.sess)) =
      (step_games env2 store sess m).map (fun r => (r.store, r.userMsgs, r.sess)) := by
  rw [step_games_shape env store sess m fn ln age ans hfn hln hage hans,
    step_games_shape env2 store sess m fn ln age ans hfn hln hage hans]
  rw [hnow]
  exact ⟨rfl, rfl⟩

/-- Witness for C6: a forbidden broadcast and a clean broadcast at tick 3
agree on store, replies and the idle reset. -/
theorem dispatch_outcome_frame_witness :
    ((step_games ⟨-100, 7, SendOutcome.forbidden, SendOutcome.other, SendOutcome.other, 3⟩
        [] ⟨ConvState.awaitingGames, ⟨some "Ann", some "Smith", some 17⟩⟩
        ⟨42, none, "так"⟩).map (fun r => (r.store, r.userMsgs, r.sess)) =
      some (upsert_registration [] 42 none "Ann" "Smith" 17 gamesYes 3,
            [successText "Ann" "Smith" 17 gamesYes], idleSession)) ∧
    ((step_games ⟨-100, 7, SendOutcome.forbidden, SendOutcome.other, SendOutcome.other, 3⟩
        [] ⟨ConvState.awaitingGames, ⟨some "Ann", some "Smith", some 17⟩⟩
        ⟨42, none, "так"⟩).map (fun r => (r.store, r.userMsgs, r.sess)) =
      (step_games ⟨-100, 7, SendOutcome.ok, SendOutcome.ok, SendOutcome.ok, 3⟩
        [] ⟨ConvState.awaitingGames, ⟨some "Ann", some "Smith", some 17⟩⟩
        ⟨42, none, "так"⟩).map (fun r => (r.store, r.userMsgs, r.sess))) :=
  dispatch_outcome_frame
    ⟨-100, 7, SendOutcome.forbidden, SendOutcome.other, SendOutcome.other, 3⟩
    ⟨-100, 7, SendOutcome.ok, SendOutcome.ok, SendOutcome.ok, 3⟩
    [] ⟨ConvState.awaitingGames, ⟨some "Ann", some "Smith", some 17⟩⟩
    ⟨42, none, "так"⟩ "Ann" "Smith" 17 gamesYes rfl rfl rfl (by decide) rfl

/-- Claim C5: when the broadcast fails on any branch, `step_games` invokes
the fallback; with an admin configured, the fallback attempt carries the
warning-tagged payload to the admin, and a failing fallback only logs —
one attempt, nothing delivered, no further escalation. -/
theorem broadcast_failure_fallback (env : Env) (store : Store) (sess : Session)
    (m : Msg) (fn ln : String) (age : Nat) (ans : String) (r : StepResult)
    (hfn : sess.data.first_name = some fn)
    (hln : sess.data.last_name_or_nick = some ln)
    (hage : sess.data.age = some age)
    (hans : normalize_games_answer m.text = some ans)
    (hr : step_games env store sess m = some r)
    (hfail : r.group.ok = false) :
    r.group.ok = false ∧
    r.admin = notify_admin_fallback env.adminId
      (groupText fn ln age ans m.username m.fromId) env.adminO ∧
    (env.adminId ≠ 0 →
      r.admin.attempts =
        [(env.adminId, warnTag ++ groupText fn ln age ans m.username m.fromId)] ∧
      (env.adminO ≠ SendOutcome.ok →
        r.admin.delivered = [] ∧ r.admin.logs = [adminFailLog] ∧
        r.admin.attempts.length = 1)) := by
  rw [step_games_shape env store sess m fn ln age ans hfn hln hage hans] at hr
  obtain rfl := (Option.some_inj.mp hr).symm
  have hg : (notify_group env.groupChatId
      (groupText fn ln age ans m.username m.fromId) env.groupO1 env.groupO2).ok = false := hfail
  have hne : ¬ ((notify_group env.groupChatId
      (groupText fn ln age ans m.username m.fromId) env.groupO1 env.groupO2).ok = true) := by
    simp [hg]
  refine ⟨hfail, ?_, ?_⟩
  · dsimp only
    rw [if_neg hne]
  · intro hadmin
    dsimp only
    rw [if_neg hne]
    exact notify_admin_fallback_spec env.adminId _ env.adminO hadmin

/-- Witness for C5: forbidden broadcast, failing fallback, admin 7. -/
theorem broadcast_failure_fallback_witness :
    (⟨[(7, warnTag ++ groupText "Ann" "Smith" 17 gamesYes none 42)], [],
        [adminFailLog]⟩ : AdminResult).attempts =
      [(7, warnTag ++ groupText "Ann" "Smith" 17 gamesYes none 42)] ∧
    (⟨[(7, warnTag ++ groupText "Ann" "Smith" 17 gamesYes none 42)], [],
        [adminFailLog]⟩ : AdminResult).delivered = [] := by
  have h := broadcast_failure_fallback
    ⟨-100, 7, SendOutcome.forbidden, SendOutcome.other, SendOutcome.other, 3⟩
    [] ⟨ConvState.awaitingGames, ⟨some "Ann", some "Smith", some 17⟩⟩
    ⟨42, none, "так"⟩ "Ann" "Smith" 17 gamesYes
    ⟨idleSession, [⟨42, none, "Ann", "Smith", 17, some gamesYes, 3⟩],
     [successText "Ann" "Smith" 17 gamesYes],
     ⟨[(-100, groupText "Ann" "Smith" 17 gamesYes none 42)], [], [],
        ["[GROUP] Forbidden"], false⟩,
     ⟨[(7, warnTag ++ groupText "Ann" "Smith" 17 gamesYes none 42)], [],
        [adminFailLog]⟩⟩
    rfl rfl rfl (by decide) (by decide) rfl
  have h2 := h.2.2 (by decide)
  exact ⟨h2.1, (h2.2 (by decide)).1⟩

/-- Claim C10: with the default configuration `ADMIN_ID = 0`, a failed
broadcast triggers no fallback message at all — the fallback trace is
empty and the failure shows up only in the dispatcher log. -/
theorem no_admin_no_fallback (env : Env) (store : Store) (sess : Session)
    (m : Msg) (fn ln : String) (age : Nat) (ans : String) (r : StepResult)
    (hfn : sess.data.first_name = some fn)
    (hln : sess.data.last_name_or_nick = some ln)
    (hage : sess.data.age = some age)
    (hans : normalize_games_answer m.text = some ans)
    (hr : step_games env store sess m = some r)
    (hadmin : env.adminId = 0)
    (hfail : r.group.ok = false) :
    r.admin = noAdmin ∧ r.group.logs ≠ [] := by
  rw [step_games_shape env store sess m fn ln age ans hfn hln hage hans] at hr
  obtain rfl := (Option.some_inj.mp hr).symm
  have hg : (notify_group env.groupChatId
      (groupText fn ln age ans m.username m.fromId) env.groupO1 env.groupO2).ok = false := hfail
  have hne : ¬ ((notify_group env.groupChatId
      (groupText fn ln age ans m.username m.fromId) env.groupO1 env.groupO2).ok = true) := by
    simp [hg]
  constructor
  · dsimp only
    rw [if_neg hne]
    simp [notify_admin_fallback, hadmin, noAdmin]
  · exact notify_group_fail_logs _ _ _ _ hg

/-- Witness for C10: forbidden broadcast with `ADMIN_ID = 0` leaves an
empty fallback trace. -/
theorem no_admin_no_fallback_witness :
    (⟨idleSession, [⟨42, none, "Ann", "Smith", 17, some gamesYes, 3⟩],
      [successText "Ann" "Smith" 17 gamesYes],
      ⟨[(-100, groupText "Ann" "Smith" 17 gamesYes none 42)], [], [],
         ["[GROUP] Forbidden"], false⟩,
      noAdmin⟩ : StepResult).admin = noAdmin ∧
    (⟨idleSession, [⟨42, none, "Ann", "Smith", 17, some gamesYes, 3⟩],
      [successText "Ann" "Smith" 17 gamesYes],
      ⟨[(-100, groupText "Ann" "Smith" 17 gamesYes none 42)], [], [],
         ["[GROUP] Forbidden"], false⟩,
      noAdmin⟩ : StepResult).group.logs ≠ [] :=
  no_admin_no_fallback
    ⟨-100, 0, SendOutcome.forbidden, SendOutcome.other, SendOutcome.other, 3⟩
    [] ⟨ConvState.awaitingGames, ⟨some "Ann", some "Smith", some 17⟩⟩
    ⟨42, none, "так"⟩ "Ann" "Smith" 17 gamesYes
    ⟨idleSession, [⟨42, none, "Ann", "Smith", 17, some gamesYes, 3⟩],
     [successText "Ann" "Smith" 17 gamesYes],
     ⟨[(-100, groupText "Ann" "Smith" 17 gamesYes none 42)], [], [],
        ["[GROUP] Forbidden"], false⟩,
     noAdmin⟩
    rfl rfl rfl (by decide) (by decide) rfl rfl

theorem pyIsDigitStr_iff (s : String) :
    pyIsDigitStr s = true ↔ (s ≠ "" ∧ ∀ c ∈ s.data, pyIsDigit c = true) := by
  rw [pyIsDigitStr, Bool.and_eq_true, Bool.not_eq_true', List.all_eq_true]
  constructor
  · rintro ⟨h1, h2⟩
    refine ⟨?_, h2⟩
    intro he
    rw [he] at h1
    exact absurd h1 (by decide)
  · rintro ⟨h1, h2⟩
    refine ⟨?_, h2⟩
    cases he : s.isEmpty
    · rfl
    · exact absurd ((String.isEmpty_iff s).mp he) h1

/-- Claim C7: the age step advances exactly when the cleaned input is a
nonempty all-digit string whose value lies in [5, 120]; a rejection leaves
the session (state and partial data) and the store unchanged. -/
theorem age_validator_boundary (store : Store) (sess : Session) (m : Msg)
    (hst : sess.st = ConvState.awaitingAge) :
    (((step_age store sess m).sess.st = ConvState.awaitingGames) ↔
      (clean m.text ≠ "" ∧ (∀ c ∈ (clean m.text).data, pyIsDigit c = true) ∧
       5 ≤ pyInt (clean m.text) ∧ pyInt (clean m.text) ≤ 120)) ∧
    ((step_age store sess m).sess.st ≠ ConvState.awaitingGames →
      (step_age store sess m).sess = sess ∧ (step_age store sess m).store = store) := by
  by_cases hd : pyIsDigitStr (clean m.text) = true
  · by_cases hrange : pyInt (clean m.text) < 5 ∨ pyInt (clean m.text) > 120
    · have hshape : step_age store sess m = ⟨sess, store, [badAgeRangeText], noGroup, noAdmin⟩ := by
        simp [step_age, hd, hrange]
      rw [hshape]
      constructor
      · dsimp only
        rw [hst]
        constructor
        · intro hcontr
          exact absurd hcontr (by simp)
        · intro hrhs
          omega
      · intro _
        exact ⟨rfl, rfl⟩
    · have hshape : step_age store sess m =
          ⟨⟨ConvState.awaitingGames, { sess.data with age := some (pyInt (clean m.text)) }⟩,
           store, [askGamesText], noGroup, noAdmin⟩ := by
        simp [step_age, hd, hrange]
      rw [hshape]
      constructor
      · dsimp only
        constructor
        · intro _
          obtain ⟨hne, hdig⟩ := (pyIsDigitStr_iff (clean m.text)).mp hd
          exact ⟨hne, hdig, by omega, by omega⟩
        · intro _
          rfl
      · intro hcontr
        exact absurd rfl hcontr
  · have hshape : step_age store sess m = ⟨sess, store, [badAgeDigitsText], noGroup, noAdmin⟩ := by
      simp [step_age, hd]
    rw [hshape]
    constructor
    · dsimp only
      rw [hst]
      constructor
      · intro hcontr
        exact absurd hcontr (by simp)
      · intro hrhs
        exact absurd ((pyIsDigitStr_iff (clean m.text)).mpr ⟨hrhs.1, hrhs.2.1⟩) hd
    · intro _
      exact ⟨rfl, rfl⟩

/-- Witness for C7: the boundary age 120 is accepted from the age state. -/
theorem age_validator_boundary_witness :
    (((step_age [] ⟨ConvState.awaitingAge, emptyData⟩ ⟨1, none, "120"⟩).sess.st =
        ConvState.awaitingGames) ↔
      (clean "120" ≠ "" ∧ (∀ c ∈ (clean "120").data, pyIsDigit c = true) ∧
       5 ≤ pyInt (clean "120") ∧ pyInt (clean "120") ≤ 120)) ∧
    ((step_age [] ⟨ConvState.awaitingAge, emptyData⟩ ⟨1, none, "120"⟩).sess.st ≠
        ConvState.awaitingGames →
      (step_age [] ⟨ConvState.awaitingAge, emptyData⟩ ⟨1, none, "120"⟩).sess =
        ⟨ConvState.awaitingAge, emptyData⟩ ∧
      (step_age [] ⟨ConvState.awaitingAge, emptyData⟩ ⟨1, none, "120"⟩).store = []) :=
  age_validator_boundary [] ⟨ConvState.awaitingAge, emptyData⟩ ⟨1, none, "120"⟩ rfl

theorem digit_not_allowed (c : Char) (h : pyIsDigit c = true) :
    allowedNameChar c = false := by
  simp only [pyIsDigit, Bool.and_eq_true, decide_eq_true_eq] at h
  simp only [allowedNameChar, Bool.or_eq_false_iff, Bool.and_eq_false_iff,
    decide_eq_false_iff_not, not_le]
  omega

/-- Claim C8: the first-name validator accepts exactly the strings of
length 2 to 50 over the permitted character class, and any string
containing a decimal digit is rejected. -/
theorem name_validator_class (s : String) :
    (valid_first_name s = true ↔
      (2 ≤ s.length ∧ s.length ≤ 50 ∧ ∀ c ∈ s.data, allowedNameChar c = true)) ∧
    (∀ c, c ∈ s.data → pyIsDigit c = true → valid_first_name s = false) := by
  have hiff : valid_first_name s = true ↔
      (2 ≤ s.length ∧ s.length ≤ 50 ∧ ∀ c ∈ s.data, allowedNameChar c = true) := by
    simp [valid_first_name, List.all_eq_true, Bool.and_eq_true, decide_eq_true_eq,
      and_assoc]
  refine ⟨hiff, ?_⟩
  intro c hc hdig
  cases hv : valid_first_name s with
  | false => rfl
  | true =>
    have hall := (hiff.mp hv).2.2 c hc
    rw [digit_not_allowed c hdig] at hall
    exact absurd hall (by simp)

/-- Witness for C8: a hyphenated Cyrillic name is accepted; a digit-bearing
name is rejected. -/
theorem name_validator_class_witness :
    valid_first_name "Анна-Марія" = true ∧ valid_first_name "Ann3" = false :=
  ⟨(name_validator_class "Анна-Марія").1.mpr (by decide),
   (name_validator_class "Ann3").2 '3' (by decide) (by decide)⟩

end Reg
